import Mathlib

/-!
Verification of the profroma frontend against its specification.

The repository is a Next.js frontend: two proxy API routes
(`app/api/consolidate/route.ts` forwarding to the backend consolidate endpoint, and
the export route forwarding to the backend export-xlsx endpoint) and a React page
(`app/page.tsx`) holding upload state, result state and edit/export handlers.

The embedding below models the route handlers and the page event handlers as pure
functions.  Platform behaviour that the code relies on is represented at the
granularity the code itself manipulates: a multipart body is represented by its
decoded sequence of parts (the value `req.formData()` yields and `fetch` consumes),
a response body by its byte sequence (`response.arrayBuffer()`), headers by an
association list queried case-insensitively (`Headers.get`), and the JavaScript
`Number` builtin by an arbitrary function passed as a parameter.
-/

/-- One decoded part of a `multipart/form-data` body: either a file part
(field name, filename, content bytes) or a plain text field. -/
inductive FormPart
  | file (name : String) (filename : String) (content : List Nat)
  | field (name : String) (value : String)
deriving DecidableEq

/-- The body of a request forwarded to the backend: the consolidate route forwards
the decoded multipart form data, the export route forwards the request text. -/
inductive OutBody
  | multipart (parts : List FormPart)
  | text (s : String)
deriving DecidableEq

/-- A request the proxy issues to the backend (both routes use method POST). -/
structure ForwardedRequest where
  url : String
  headers : List (String × String)
  body : OutBody
deriving DecidableEq

/-- A response received from the backend: status code, headers, body bytes. -/
structure BackendResponse where
  status : Nat
  headers : List (String × String)
  body : List Nat
deriving DecidableEq

/-- The response a proxy route returns to the browser. -/
structure ProxyResponse where
  status : Nat
  headers : List (String × String)
  body : List Nat
deriving DecidableEq

/-- `Headers.get`: lookup of a header value; `none` models the JavaScript `null`
returned for an absent header.  Header names are case-insensitive and the Headers
class normalizes them, so the model represents every header name in its lowercase
normal form and looks it up by exact match. -/
def headerGet (hs : List (String × String)) (name : String) : Option String :=
  (hs.find? (fun h => h.1 = name)).map (fun h => h.2)

/-- JavaScript `x || d` applied to a string that may be null or undefined: the
default `d` is chosen when `x` is absent or is the empty string, the only falsy
string value. -/
def jsOr (x : Option String) (d : String) : String :=
  match x with
  | some v => if v = "" then d else v
  | none => d

/-- `process.env.BACKEND_INTERNAL_URL || 'http://127.0.0.1:8000'` — the identical
expression appears in both route files; `env` is the environment variable value,
`none` when unset. -/
def backendOrigin (env : Option String) : String :=
  jsOr env "http://127.0.0.1:8000"

/-- Consolidate route, request side: reads the form data of the incoming request
and forwards it in a POST to `${backend}/api/consolidate`. -/
def consolidateForward (env : Option String) (formData : List FormPart) :
    ForwardedRequest :=
  { url := backendOrigin env ++ "/api/consolidate"
    headers := []
    body := .multipart formData }

/-- Consolidate route, response side: relays the backend body bytes and status,
with content-type `response.headers.get('content-type') || 'application/json'`. -/
def consolidateRelay (resp : BackendResponse) : ProxyResponse :=
  { status := resp.status
    headers := [("content-type", jsOr (headerGet resp.headers "content-type") "application/json")]
    body := resp.body }

/-- Export route, request side: reads the request text and forwards it in a POST to
`${backend}/api/export-xlsx` with a `Content-Type: application/json` header. -/
def exportForward (env : Option String) (bodyText : String) : ForwardedRequest :=
  { url := backendOrigin env ++ "/api/export-xlsx"
    headers := [("Content-Type", "application/json")]
    body := .text bodyText }

/-- The default content type of the export route response. -/
def xlsxMime : String := "application/vnd.openxmlformats-officedocument.spreadsheetml.sheet"

/-- The default content-disposition of the export route response. -/
def xlsxDisposition : String := "attachment; filename=\"consolidated.xlsx\""

/-- Export route, response side: relays the backend body bytes and status with
content-type and content-disposition each defaulted through `||`. -/
def exportRelay (resp : BackendResponse) : ProxyResponse :=
  { status := resp.status
    headers :=
      [("content-type", jsOr (headerGet resp.headers "content-type") xlsxMime),
       ("content-disposition", jsOr (headerGet resp.headers "content-disposition") xlsxDisposition)]
    body := resp.body }

/-- C1: the consolidate proxy forwards the multipart body it received unmodified:
the forwarded request carries exactly the parts of the submission — every file
part and the coa_csv text part — in the order received, whatever the backend
origin is. -/
theorem consolidate_forwards_body_unmodified (env : Option String)
    (formData : List FormPart) :
    (consolidateForward env formData).body = OutBody.multipart formData := rfl

/-- C2: both proxy routes relay the backend status code and body bytes exactly,
for every backend response — error responses included, with no translation. -/
theorem proxies_relay_status_and_body (resp : BackendResponse) :
    (consolidateRelay resp).status = resp.status ∧
    (consolidateRelay resp).body = resp.body ∧
    (exportRelay resp).status = resp.status ∧
    (exportRelay resp).body = resp.body :=
  ⟨rfl, rfl, rfl, rfl⟩

/-- A sample backend response carrying an empty content-disposition value. -/
def respEmptyDisposition : BackendResponse :=
  { status := 200, headers := [("content-disposition", "")], body := [] }

/-- A sample backend response supplying both headers with non-empty values. -/
def respSupplied : BackendResponse :=
  { status := 200
    headers := [("content-type", "text/plain"), ("content-disposition", "inline")]
    body := [] }

/-- A sample backend response supplying neither header. -/
def respBare : BackendResponse := { status := 200, headers := [], body := [] }

/-- The content-disposition the export route response carries is the backend
value defaulted through `||`. -/
theorem headerGet_exportRelay_cd (resp : BackendResponse) :
    headerGet (exportRelay resp).headers "content-disposition" =
      some (jsOr (headerGet resp.headers "content-disposition") xlsxDisposition) := by
  simp +decide [exportRelay, headerGet, List.find?]

/-- The content-type the export route response carries is the backend value
defaulted through `||`. -/
theorem headerGet_exportRelay_ct (resp : BackendResponse) :
    headerGet (exportRelay resp).headers "content-type" =
      some (jsOr (headerGet resp.headers "content-type") xlsxMime) := by
  simp +decide [exportRelay, headerGet, List.find?]

/-- C3, counterexample: a backend response that supplies the content-disposition
header with an empty value.  The claim says a supplied header value is relayed;
the code applies `||`, for which the empty string is falsy, so the default
disposition is substituted instead of relaying the supplied empty value. -/
theorem export_header_empty_not_relayed :
    headerGet respEmptyDisposition.headers "content-disposition" = some "" ∧
    headerGet (exportRelay respEmptyDisposition).headers "content-disposition" =
      some xlsxDisposition ∧
    some xlsxDisposition ≠ (some "" : Option String) := by
  refine ⟨by decide, by decide, by decide⟩

/-- C3, amended: the export proxy relays a backend content-disposition or
content-type header exactly when the supplied value is non-empty; when the header
is absent or its value is the empty string, the defaults
`attachment; filename="consolidated.xlsx"` and the OOXML spreadsheet MIME type
are substituted. -/
theorem export_header_defaults (resp : BackendResponse) :
    (∀ v, headerGet resp.headers "content-disposition" = some v → v ≠ "" →
      headerGet (exportRelay resp).headers "content-disposition" = some v) ∧
    (headerGet resp.headers "content-disposition" = none ∨
        headerGet resp.headers "content-disposition" = some "" →
      headerGet (exportRelay resp).headers "content-disposition" = some xlsxDisposition) ∧
    (∀ v, headerGet resp.headers "content-type" = some v → v ≠ "" →
      headerGet (exportRelay resp).headers "content-type" = some v) ∧
    (headerGet resp.headers "content-type" = none ∨
        headerGet resp.headers "content-type" = some "" →
      headerGet (exportRelay resp).headers "content-type" = some xlsxMime) := by
  refine ⟨?_, ?_, ?_, ?_⟩
  · intro v hv hne
    rw [headerGet_exportRelay_cd, hv]
    simp [jsOr, hne]
  · intro h
    rw [headerGet_exportRelay_cd]
    rcases h with h | h <;> rw [h] <;> simp [jsOr]
  · intro v hv hne
    rw [headerGet_exportRelay_ct, hv]
    simp [jsOr, hne]
  · intro h
    rw [headerGet_exportRelay_ct]
    rcases h with h | h <;> rw [h] <;> simp [jsOr]

/-- C3, witness: the amended theorem applied at concrete backend responses — one
supplying non-empty values for both headers (relayed), one supplying neither
(defaults substituted). -/
theorem export_header_defaults_witness :
    headerGet (exportRelay respSupplied).headers "content-disposition" = some "inline" ∧
    headerGet (exportRelay respSupplied).headers "content-type" = some "text/plain" ∧
    headerGet (exportRelay respBare).headers "content-disposition" = some xlsxDisposition ∧
    headerGet (exportRelay respBare).headers "content-type" = some xlsxMime :=
  ⟨(export_header_defaults respSupplied).1 "inline" (by decide) (by decide),
   (export_header_defaults respSupplied).2.2.1 "text/plain" (by decide) (by decide),
   (export_header_defaults respBare).2.1 (Or.inl (by decide)),
   (export_header_defaults respBare).2.2.2 (Or.inl (by decide))⟩

/-- C8: both routes resolve the backend origin to the value of
BACKEND_INTERNAL_URL when it is set and non-empty, and to
`http://127.0.0.1:8000` when it is unset or empty; the forwarded request URLs
are that origin followed by the endpoint path. -/
theorem backend_origin_selection (env : Option String) (formData : List FormPart)
    (bodyText : String) :
    (∀ s, env = some s → s ≠ "" →
      (consolidateForward env formData).url = s ++ "/api/consolidate" ∧
      (exportForward env bodyText).url = s ++ "/api/export-xlsx") ∧
    (env = none ∨ env = some "" →
      (consolidateForward env formData).url = "http://127.0.0.1:8000/api/consolidate" ∧
      (exportForward env bodyText).url = "http://127.0.0.1:8000/api/export-xlsx") := by
  constructor
  · intro s hs hne
    subst hs
    constructor <;> simp [consolidateForward, exportForward, backendOrigin, jsOr, hne]
  · intro h
    rcases h with h | h <;> subst h <;>
      exact ⟨rfl, rfl⟩

/-- C8, witness: the origin selection evaluated at a concrete non-empty variable
value and at an unset variable. -/
theorem backend_origin_selection_witness :
    ((consolidateForward (some "http://backend:9000") []).url =
        "http://backend:9000/api/consolidate" ∧
      (exportForward (some "http://backend:9000") "").url =
        "http://backend:9000/api/export-xlsx") ∧
    ((consolidateForward none []).url = "http://127.0.0.1:8000/api/consolidate" ∧
      (exportForward none "").url = "http://127.0.0.1:8000/api/export-xlsx") :=
  ⟨(backend_origin_selection (some "http://backend:9000") [] "").1
      "http://backend:9000" rfl (by decide),
   (backend_origin_selection none [] "").2 (Or.inl rfl)⟩

/-! ## UI page (app/page.tsx) -/

/-- The result of the JavaScript `Number` builtin: either NaN or a finite value,
the latter represented as a rational (every value `Number` returns on a decimal
literal is finite or NaN; infinities do not arise from the inputs modelled here). -/
structure JsNum where
  isNaN : Bool
  val : ℚ
deriving DecidableEq

/-- A runtime cell value of a Row object: null, a number, or a string.  Field
types in the TypeScript Row declaration constrain which appear where, but
`updateRow` assigns dynamically, so every field holds a CellVal. -/
inductive CellVal
  | null
  | num (x : JsNum)
  | str (s : String)
deriving DecidableEq

/-- The keys of the Row type (`keyof Row`); named RowKey because Lean reserves
the name Field for the algebraic structure. -/
inductive RowKey
  | account_number
  | account_name
  | y2022
  | y2023
  | y2024
  | ttm
  | mapped_coa_code
  | mapped_coa_name
  | mapping_confidence
  | confidence
  | notes
deriving DecidableEq

/-- One consolidated financial-statement line, as held in UI state. -/
structure Row where
  account_number : CellVal
  account_name : CellVal
  y2022 : CellVal
  y2023 : CellVal
  y2024 : CellVal
  ttm : CellVal
  mapped_coa_code : CellVal
  mapped_coa_name : CellVal
  mapping_confidence : CellVal
  confidence : CellVal
  notes : CellVal
deriving DecidableEq

/-- Dynamic property read `row[key]`. -/
def Row.get (r : Row) : RowKey → CellVal
  | .account_number => r.account_number
  | .account_name => r.account_name
  | .y2022 => r.y2022
  | .y2023 => r.y2023
  | .y2024 => r.y2024
  | .ttm => r.ttm
  | .mapped_coa_code => r.mapped_coa_code
  | .mapped_coa_name => r.mapped_coa_name
  | .mapping_confidence => r.mapping_confidence
  | .confidence => r.confidence
  | .notes => r.notes

/-- Dynamic property write `row[key] = v` on a fresh copy. -/
def Row.set (r : Row) (k : RowKey) (v : CellVal) : Row :=
  match k with
  | .account_number => { r with account_number := v }
  | .account_name => { r with account_name := v }
  | .y2022 => { r with y2022 := v }
  | .y2023 => { r with y2023 := v }
  | .y2024 => { r with y2024 := v }
  | .ttm => { r with ttm := v }
  | .mapped_coa_code => { r with mapped_coa_code := v }
  | .mapped_coa_name => { r with mapped_coa_name := v }
  | .mapping_confidence => { r with mapping_confidence := v }
  | .confidence => { r with confidence := v }
  | .notes => { r with notes := v }

/-- The meta record of a consolidated result. -/
structure ResultMeta where
  units : Option String
  ttm_present : Bool
  warnings : List String
deriving DecidableEq

/-- The ConsolidatedResult payload held as UI state. -/
structure ConsolidatedResult where
  meta : ResultMeta
  rows : List Row
deriving DecidableEq

/-- `const numFields: (keyof Row)[]` from page.tsx. -/
def numFields : List RowKey :=
  [.y2022, .y2023, .y2024, .ttm, .mapping_confidence, .confidence]

/-- An uploaded file: name and content bytes. -/
structure FileData where
  name : String
  content : List Nat
deriving DecidableEq

/-- The component state of the Home page: the five useState hooks. -/
structure AppState where
  files : List FileData
  coaText : String
  result : Option ConsolidatedResult
  loading : Bool
  error : Option String
deriving DecidableEq

/-- A thrown JavaScript value as the catch clause observes it: whether it is an
instance of Error, and its message property when it is. -/
structure JsError where
  isErrorInstance : Bool
  message : String
deriving DecidableEq

/-- `e instanceof Error ? e.message : 'Unexpected error'` — the message the
catch clause of onRun stores. -/
def shownMessage (e : JsError) : String :=
  if e.isErrorInstance then e.message else "Unexpected error"

/-- `res.ok`: status in the range 200 to 299. -/
def isOk (status : Nat) : Bool :=
  200 ≤ status && status ≤ 299

/-- The outcome of a fetch as the handler observes it: either the promise
rejected with a thrown value, or a response arrived with a status, its body
text, and the outcome of parsing the body as a ConsolidatedResult
(`res.json()`), which itself may throw. -/
inductive FetchOutcome
  | threw (e : JsError)
  | response (status : Nat) (bodyText : String)
      (jsonBody : Except JsError ConsolidatedResult)

/-- A network request issued by a page handler, at the granularity the page
builds it: onRun posts the form parts to /api/consolidate, onDownload posts
`JSON.stringify(result)` to /api/export-xlsx (the payload is carried here in
decoded form). -/
inductive IssuedRequest
  | consolidate (parts : List FormPart)
  | exportXlsx (payload : ConsolidatedResult)
deriving DecidableEq

/-- The form onRun builds: one `pdfs` part per selected file, in order, then the
`coa_csv` text field. -/
def consolidateParts (s : AppState) : List FormPart :=
  s.files.map (fun f => FormPart.file "pdfs" f.name f.content) ++
    [FormPart.field "coa_csv" s.coaText]

/-- onRun, synchronous prefix: clears the error, sets loading, and issues the
consolidate request. -/
def onRunStart (s : AppState) : AppState × List IssuedRequest :=
  ({ s with error := none, loading := true }, [.consolidate (consolidateParts s)])

/-- onRun, continuation after the fetch settles: on a non-ok response the read
body text is thrown as `new Error(text || 'Failed to consolidate')` and caught
(an Error instance, so its message is stored); on an ok response the parsed JSON
is stored as the result, and a json parse failure is caught like any thrown
value; a rejected fetch is caught likewise.  The finally clause clears
loading in every case. -/
def onRunComplete (s : AppState) (o : FetchOutcome) : AppState :=
  match o with
  | .threw e => { s with error := some (shownMessage e), loading := false }
  | .response status bodyText jsonBody =>
    if isOk status then
      match jsonBody with
      | .ok data => { s with result := some data, loading := false }
      | .error e => { s with error := some (shownMessage e), loading := false }
    else
      { s with
        error := some (shownMessage
          { isErrorInstance := true
            message := if bodyText = "" then "Failed to consolidate" else bodyText })
        loading := false }

/-- One full consolidate attempt: the synchronous prefix followed by the
continuation on the observed fetch outcome. -/
def runAttempt (s : AppState) (o : FetchOutcome) : AppState × List IssuedRequest :=
  (onRunComplete (onRunStart s).1 o, (onRunStart s).2)

/-- onDownload: returns immediately when no result exists; otherwise issues the
export request and, when the response is not ok, stores the fixed message
"Export failed".  On an ok response the handler only triggers the
browser-native save, leaving the state unchanged; a rejected fetch propagates
uncaught, updating no state. -/
def onDownload (s : AppState) (o : FetchOutcome) : AppState × List IssuedRequest :=
  match s.result with
  | none => (s, [])
  | some r =>
    (match o with
      | .threw _ => s
      | .response status _ _ =>
        if isOk status then s else { s with error := some "Export failed" },
     [.exportXlsx r])

/-- The value updateRow stores at the addressed key: the six numeric keys coerce
the input through the Number builtin, every other key stores the input string;
in both cases the empty string stores null. -/
def coercedVal (toNumber : String → JsNum) (key : RowKey) (value : String) : CellVal :=
  if key ∈ numFields then
    if value = "" then .null else .num (toNumber value)
  else
    if value = "" then .null else .str value

/-- updateRow: copies the row list and the addressed row, writes the coerced
value at the addressed key, and stores the copy; numeric fields coerce the
input to `Number(value)` (null for the empty string), all other fields store the
string verbatim (null for the empty string).  `toNumber` is the JavaScript
`Number` builtin, an external function the page calls.  A null previous result
is returned unchanged.  (For an out-of-bounds index JavaScript would extend the
array; every theorem below restricts to in-bounds indices, where `List.set`
coincides with the source assignment, and the `none` branch of the row lookup
is unreachable.) -/
def updateRow (toNumber : String → JsNum) (prev : Option ConsolidatedResult)
    (index : Nat) (key : RowKey) (value : String) : Option ConsolidatedResult :=
  match prev with
  | none => none
  | some p =>
    match p.rows[index]? with
    | none => some p
    | some row0 =>
      some { p with rows := p.rows.set index (row0.set key (coercedVal toNumber key value)) }

/-- The updateRow handler as a page event: a pure state update issuing no
network request (its body contains no fetch call). -/
def updateRowStep (toNumber : String → JsNum) (s : AppState) (index : Nat)
    (key : RowKey) (value : String) : AppState × List IssuedRequest :=
  ({ s with result := updateRow toNumber s.result index key value }, [])

/-- Reading the key just written returns the written value. -/
theorem Row.get_set_same (r : Row) (k : RowKey) (v : CellVal) :
    (r.set k v).get k = v := by
  cases k <;> rfl

/-- Reading any other key is unaffected by the write. -/
theorem Row.get_set_ne (r : Row) (k k2 : RowKey) (v : CellVal) (h : k2 ≠ k) :
    (r.set k v).get k2 = r.get k2 := by
  cases k <;> cases k2 <;> first | rfl | exact absurd rfl h

/-- updateRow on an existing result and an in-bounds index stores the copied row
list with the coerced value written at the addressed key. -/
theorem updateRow_eq (toNumber : String → JsNum) (p : ConsolidatedResult)
    (i : Nat) (k : RowKey) (v : String) (h : i < p.rows.length) :
    updateRow toNumber (some p) i k v =
      some { p with rows := p.rows.set i ((p.rows[i]).set k (coercedVal toNumber k v)) } := by
  unfold updateRow
  dsimp only
  rw [List.getElem?_eq_getElem h]

/-- The initial component state: no files, empty COA text, no result, not
loading, no error. -/
def initialState : AppState :=
  { files := [], coaText := "", result := none, loading := false, error := none }

/-- A sample row with every cell null. -/
def rowSample : Row :=
  { account_number := .null, account_name := .null, y2022 := .null, y2023 := .null
    y2024 := .null, ttm := .null, mapped_coa_code := .null, mapped_coa_name := .null
    mapping_confidence := .null, confidence := .null, notes := .null }

/-- A sample consolidated result with one row. -/
def resultSample : ConsolidatedResult :=
  { meta := { units := some "USD", ttm_present := false, warnings := [] }
    rows := [rowSample] }

/-- A sample state holding a result. -/
def stateWithResult : AppState := { initialState with result := some resultSample }

/-- A sample interpretation of the Number builtin, agreeing with JavaScript at
the input "1234.5": Number("1234.5") is the finite value 1234.5. -/
def toNumberSample (s : String) : JsNum :=
  if s = "1234.5" then { isNaN := false, val := (2469 : ℚ) / 2 }
  else { isNaN := true, val := 0 }

/-- The exception a browser fetch raises on a network-level failure: a
TypeError — an instance of Error — whose message is "Failed to fetch". -/
def networkFailure : JsError := { isErrorInstance := true, message := "Failed to fetch" }

/-- C4: an edit through updateRow on an existing row stores, at the edited key,
null when the input is empty, otherwise Number(input) when the key is one of
y2022, y2023, y2024, ttm, mapping_confidence, confidence, and the input string
verbatim for every other key; `toNumber` stands for the JavaScript Number
builtin. -/
theorem updateRow_coercion (toNumber : String → JsNum) (p : ConsolidatedResult)
    (i : Nat) (k : RowKey) (v : String) (h : i < p.rows.length) :
    ∃ q, updateRow toNumber (some p) i k v = some q ∧
      q.rows.length = p.rows.length ∧
      ∀ h2 : i < q.rows.length,
        (q.rows[i]).get k =
          if k ∈ [RowKey.y2022, .y2023, .y2024, .ttm, .mapping_confidence, .confidence] then
            (if v = "" then CellVal.null else CellVal.num (toNumber v))
          else
            (if v = "" then CellVal.null else CellVal.str v) := by
  rw [updateRow_eq toNumber p i k v h]
  refine ⟨_, rfl, by simp, ?_⟩
  intro h2
  show ((p.rows.set i ((p.rows[i]).set k (coercedVal toNumber k v)))[i]).get k = _
  rw [List.getElem_set_self (by simpa using h)]
  rw [Row.get_set_same]
  rfl

/-- C4, witness: editing the y2023 cell of a one-row result with the input
"1234.5" under the sample Number interpretation. -/
theorem updateRow_coercion_witness :
    0 < resultSample.rows.length ∧
    ∃ q, updateRow toNumberSample (some resultSample) 0 .y2023 "1234.5" = some q ∧
      q.rows.length = resultSample.rows.length ∧
      ∀ h2 : 0 < q.rows.length,
        (q.rows[0]).get .y2023 =
          if RowKey.y2023 ∈ [RowKey.y2022, .y2023, .y2024, .ttm, .mapping_confidence, .confidence] then
            (if "1234.5" = "" then CellVal.null else CellVal.num (toNumberSample "1234.5"))
          else
            (if "1234.5" = "" then CellVal.null else CellVal.str "1234.5") :=
  ⟨by decide,
    updateRow_coercion toNumberSample resultSample 0 .y2023 "1234.5" (by decide)⟩

/-- C5: an edit through updateRow changes at most the addressed key of the
addressed row: every other key of that row, every other row, the meta record,
and every other piece of component state are unchanged, and the edit issues no
network request. -/
theorem updateRow_frame (toNumber : String → JsNum) (s : AppState)
    (p : ConsolidatedResult) (i : Nat) (k : RowKey) (v : String)
    (hres : s.result = some p) (h : i < p.rows.length) :
    ∃ q, updateRowStep toNumber s i k v = ({ s with result := some q }, []) ∧
      q.meta = p.meta ∧
      q.rows.length = p.rows.length ∧
      (∀ j, j ≠ i → ∀ hj2 : j < q.rows.length, ∀ hj : j < p.rows.length,
        q.rows[j] = p.rows[j]) ∧
      (∀ k2, k2 ≠ k → ∀ hi2 : i < q.rows.length,
        (q.rows[i]).get k2 = (p.rows[i]).get k2) := by
  refine ⟨{ p with rows := p.rows.set i ((p.rows[i]).set k (coercedVal toNumber k v)) },
    ?_, rfl, by simp, ?_, ?_⟩
  · simp [updateRowStep, hres, updateRow_eq toNumber p i k v h]
  · intro j hne hj2 hj
    exact List.getElem_set_ne (Ne.symm hne) hj2
  · intro k2 hk2 hi2
    show ((p.rows.set i ((p.rows[i]).set k (coercedVal toNumber k v)))[i]).get k2 = _
    rw [List.getElem_set_self (by simpa using h)]
    exact Row.get_set_ne _ _ _ _ hk2

/-- C5, witness: editing the y2023 cell of the sample one-row state. -/
theorem updateRow_frame_witness :
    stateWithResult.result = some resultSample ∧
    0 < resultSample.rows.length ∧
    ∃ q, updateRowStep toNumberSample stateWithResult 0 .y2023 "1234.5" =
        ({ stateWithResult with result := some q }, []) ∧
      q.meta = resultSample.meta ∧
      q.rows.length = resultSample.rows.length ∧
      (∀ j, j ≠ 0 → ∀ hj2 : j < q.rows.length, ∀ hj : j < resultSample.rows.length,
        q.rows[j] = resultSample.rows[j]) ∧
      (∀ k2, k2 ≠ RowKey.y2023 → ∀ hi2 : 0 < q.rows.length,
        (q.rows[0]).get k2 = (resultSample.rows[0]).get k2) :=
  ⟨rfl, by decide,
    updateRow_frame toNumberSample stateWithResult resultSample 0 .y2023 "1234.5"
      rfl (by decide)⟩

/-- C6, counterexample: a network-level fetch failure is a thrown TypeError, an
instance of Error, so the catch clause stores the message of the exception —
"Failed to fetch" — and not the fixed text "Unexpected error" the claim
requires. -/
theorem consolidate_network_error_message_cex :
    (runAttempt initialState (.threw networkFailure)).1.error = some "Failed to fetch" ∧
    some "Failed to fetch" ≠ some "Unexpected error" :=
  ⟨rfl, by decide⟩

/-- C6, amended: when the consolidate fetch throws, the message shown is the
message of the thrown exception whenever it is an instance of Error — which a
network-level fetch failure (a TypeError) always is — and "Unexpected error"
only when the thrown value is not an Error instance. -/
theorem consolidate_thrown_error_message (s : AppState) (e : JsError) :
    (runAttempt s (.threw e)).1.error =
      some (if e.isErrorInstance then e.message else "Unexpected error") := rfl

/-- C7: when a result exists and the export response is not ok, whatever its
status and body, the stored error message is exactly "Export failed". -/
theorem export_failure_message (s : AppState) (r : ConsolidatedResult)
    (status : Nat) (bodyText : String) (jsonBody : Except JsError ConsolidatedResult)
    (hres : s.result = some r) (hstatus : isOk status = false) :
    (onDownload s (.response status bodyText jsonBody)).1.error = some "Export failed" := by
  simp [onDownload, hres, hstatus]

/-- C7, witness: a 500 export response against the sample state. -/
theorem export_failure_message_witness :
    (onDownload stateWithResult
        (.response 500 "backend exploded" (.error networkFailure))).1.error =
      some "Export failed" :=
  export_failure_message stateWithResult resultSample 500 "backend exploded"
    (.error networkFailure) rfl (by decide)

/-- C9: when no result exists, triggering the download action issues no export
request and leaves the state unchanged: the handler returns before fetching. -/
theorem download_requires_result (s : AppState) (o : FetchOutcome)
    (h : s.result = none) :
    onDownload s o = (s, []) := by
  simp [onDownload, h]

/-- C9, witness: the initial state holds no result and download issues nothing. -/
theorem download_requires_result_witness :
    onDownload initialState (.threw networkFailure) = (initialState, []) :=
  download_requires_result initialState (.threw networkFailure) rfl

/-- The consolidate outcomes claim C10 calls failures: a non-ok response or a
rejected fetch. -/
def FetchOutcome.failing : FetchOutcome → Prop
  | .threw _ => True
  | .response status _ _ => isOk status = false

/-- C10: a failed consolidate attempt — non-ok response or thrown exception —
preserves the stored result, the selected files and the COA text; it only
stores an error message and clears the loading flag. -/
theorem consolidate_failure_preserves_result (s : AppState) (o : FetchOutcome)
    (hfail : o.failing) :
    (runAttempt s o).1.result = s.result ∧
    (runAttempt s o).1.files = s.files ∧
    (runAttempt s o).1.coaText = s.coaText ∧
    (runAttempt s o).1.loading = false ∧
    ∃ m, (runAttempt s o).1.error = some m := by
  cases o with
  | threw e => exact ⟨rfl, rfl, rfl, rfl, _, rfl⟩
  | response status bodyText jsonBody =>
    have hst : isOk status = false := hfail
    refine ⟨?_, ?_, ?_, ?_, ?_⟩ <;>
      simp [runAttempt, onRunStart, onRunComplete, hst]

/-- C10, witness: a 500 consolidate response against a state already holding a
result. -/
theorem consolidate_failure_preserves_result_witness :
    FetchOutcome.failing (.response 500 "boom" (.error networkFailure)) ∧
    ((runAttempt stateWithResult (.response 500 "boom" (.error networkFailure))).1.result =
        stateWithResult.result ∧
      (runAttempt stateWithResult (.response 500 "boom" (.error networkFailure))).1.files =
        stateWithResult.files ∧
      (runAttempt stateWithResult (.response 500 "boom" (.error networkFailure))).1.coaText =
        stateWithResult.coaText ∧
      (runAttempt stateWithResult (.response 500 "boom" (.error networkFailure))).1.loading =
        false ∧
      ∃ m, (runAttempt stateWithResult
        (.response 500 "boom" (.error networkFailure))).1.error = some m) :=
  ⟨rfl,
    consolidate_failure_preserves_result stateWithResult
      (.response 500 "boom" (.error networkFailure)) rfl⟩
